import Mathlib

/-
Verification of the field-validation core of the racoon form layer.

The development shallowly embeds the two field kinds of the source
(src/src/forms/fields/input_field.rs and src/src/forms/fields/file_field.rs):
pure data is translated to Lean structures, the mutable raw maps become
explicit map values threaded through validate, the mutation of a Vec by
remove(0) becomes a function returning the drained value together with the
remaining list, and the two panicking unwrap calls of the text field are
modelled by an Option-valued outcome (none standing for the panic).
-/

namespace Racoon

/-- Modelled from the spec: the raw file descriptor produced by the multipart
decoding collaborator (the type crate::core::forms::FileField is not among the
provided sources). It holds the original filename and the path of the already
materialized temporary file. -/
structure CoreFileField where
  name : String
  temp_path : String
deriving DecidableEq

/-- UploadedFile from file_field.rs: original filename, the wrapped core
descriptor and its temporary path. -/
structure UploadedFile where
  filename : String
  core_file_field : CoreFileField
  temp_path : String
deriving DecidableEq

/-- UploadedFile::from_core_file_field. -/
def UploadedFile.from_core_file_field (c : CoreFileField) : UploadedFile :=
  { filename := c.name, core_file_field := c, temp_path := c.temp_path }

/-- Modelled from the spec: RawFormInput, a mapping from field name to the
ordered list of raw string values (crate::core::forms::FormData is not among
the provided sources). -/
def FormData : Type := String → Option (List String)

/-- Modelled from the spec: RawFileInput, a mapping from field name to the
ordered list of raw file descriptors (crate::core::forms::Files is not among
the provided sources). -/
def Files : Type := String → Option (List CoreFileField)

/-- HashMap::remove as used by both validate functions: returns the entry
stored under the key together with the map with that key absent. -/
def mapRemove {A : Type} (m : String → Option A) (k : String) :
    Option A × (String → Option A) :=
  (m k, fun k2 => if k2 = k then none else m k2)

/-- InputFieldError from input_field.rs. The positional arguments are
declared, by the doc comments of the source, as (field_name), then
(field_name, value, minimum_length), then (field_name, value, maximum_length). -/
inductive InputFieldError where
  | MissingField (field_name : String)
  | MinimumLengthRequired (field_name : String) (value : String) (minimum_length : Nat)
  | MaximumLengthExceed (field_name : String) (value : String) (maximum_length : Nat)
deriving DecidableEq

/-- ErrorHandler from input_field.rs. -/
def ErrorHandler : Type := InputFieldError → List String → List String

/-- FromAny from input_field.rs. Rust from_vec mutates the value list, so the
embedding returns the produced value together with the remaining list. The
boolean models the TypeId comparison performed inside InputField::validate
(TypeId::of::<T>() == TypeId::of::<Option<String>>()). -/
class FromAny (T : Type) where
  from_vec : List String → Option T × List String
  type_id_eq_option_string : Bool

/-- The FromAny impl for String: removes and returns the first value, and
fails (None) on an empty list. -/
instance fromAnyString : FromAny String where
  from_vec values :=
    match values with
    | [] => (none, [])
    | v :: rest => (some v, rest)
  type_id_eq_option_string := false

/-- The FromAny impl for Option String: removes and returns the first value
when present, and otherwise succeeds with the value None. -/
instance fromAnyOptionString : FromAny (Option String) where
  from_vec values :=
    match values with
    | [] => (some none, [])
    | v :: rest => (some (some v), rest)
  type_id_eq_option_string := true

/-- InputField from input_field.rs. The Arc and Mutex wrappers, the atomic
flag and the type erased Box of the result slot are flattened: the slot is
Option T (none when the slot is empty or holds a value that would not
downcast to T, as the freshly constructed slot does for T = String). -/
structure InputField (T : Type) where
  field_name : String
  max_length : Option Nat
  result : Option T
  error_handler : Option ErrorHandler
  default_value : Option String
  validated : Bool

/-- InputField::new. -/
def InputField.new (T : Type) (field_name : String) : InputField T :=
  { field_name := field_name, max_length := none, result := none,
    error_handler := none, default_value := none, validated := false }

/-- InputField::max_length (builder). -/
def InputField.with_max_length {T : Type} (self : InputField T) (n : Nat) :
    InputField T :=
  { self with max_length := some n }

/-- InputField::set_default (builder). -/
def InputField.set_default {T : Type} (self : InputField T) (value : String) :
    InputField T :=
  { self with default_value := some value }

/-- InputField::handle_error_message (builder). -/
def InputField.handle_error_message {T : Type} (self : InputField T)
    (callback : ErrorHandler) : InputField T :=
  { self with error_handler := some callback }

/-- InputField::value. The two panicking branches (flag not set, and slot
empty or of the wrong type) are both modelled by none. -/
def InputField.value {T : Type} (self : InputField T) : Option T :=
  if !self.validated then
    none
  else
    match self.result with
    | some t => some t
    | none => none

/-- validate_input_length from input_field.rs. It reads values.get(0) and
returns without touching errors when the list is empty; the call site of the
source (line 145) constructs the error as
MaximumLengthExceed(&value, &field_name, &max_length), in that order, so the
embedding applies the constructor to value first as well. -/
def validate_input_length (field_name : String) (values : List String)
    (error_handler : Option ErrorHandler) (max_length : Option Nat)
    (errors : List String) : List String :=
  match values.head? with
  | none => errors
  | some value =>
    match max_length with
    | none => errors
    | some max_length =>
      if value.length > max_length then
        let default_max_length_exceed_messsage :=
          "Character length exceeds maximum size of " ++ toString max_length
        match error_handler with
        | some error_handler =>
          let max_length_exceed_error :=
            InputFieldError.MaximumLengthExceed value field_name max_length
          errors ++ error_handler max_length_exceed_error
            [default_max_length_exceed_messsage]
        | none => errors ++ [default_max_length_exceed_messsage]
      else errors

/-- The value returned by one call of InputField::validate: the outcome (none
models the panic of the unwrap calls at the conversion step), the updated
field state, and the two raw maps after the call. -/
structure InputValidateResult (T : Type) where
  outcome : Option (Except (List String) Unit)
  field : InputField T
  form_data : FormData
  files : Files

/-- InputField::validate from input_field.rs, with the async body inlined
sequentially: remove the raw entry, run the length check on the present
values, intercept the required-but-empty case (default substitution or
missing-field error), fail on accumulated errors, otherwise mark validated
and convert through FromAny::from_vec, whose unwrap panics when the
conversion returns None (outcome none). -/
def InputField.validate {T : Type} [FromAny T] (self : InputField T)
    (form_data : FormData) (files : Files) : InputValidateResult T :=
  let field_name := self.field_name
  let removed := mapRemove form_data field_name
  let form_values := removed.1
  let form_data := removed.2
  let max_length := self.max_length
  let default_value := self.default_value
  let self := { self with default_value := none }
  let error_handler := self.error_handler
  let errors : List String := []
  let step1 : List String × Bool :=
    match form_values with
    | some values =>
      (validate_input_length field_name values error_handler max_length errors,
        values.isEmpty)
    | none => (errors, true)
  let errors := step1.1
  let is_empty := step1.2
  let is_optional := @FromAny.type_id_eq_option_string T _
  let step2 : List String × Option (List String) :=
    if !is_optional && is_empty then
      match default_value with
      | some default_value => (errors, some [default_value])
      | none =>
        let default_field_missing_error := "This field is missing."
        match error_handler with
        | some error_handler =>
          (errors ++ error_handler (InputFieldError.MissingField field_name)
            [default_field_missing_error], form_values)
        | none => (errors ++ [default_field_missing_error], form_values)
    else (errors, form_values)
  let errors := step2.1
  let form_values := step2.2
  let final : Option (Except (List String) Unit) × InputField T :=
    if errors.length > 0 then
      (some (Except.error errors), self)
    else
      let self := { self with validated := true }
      let conv : Option T :=
        match form_values with
        | some values => (FromAny.from_vec values).1
        | none => (FromAny.from_vec ([] : List String) : Option T × List String).1
      match conv with
      | some t => (some (Except.ok ()), { self with result := some t })
      | none => (none, self)
  { outcome := final.1, field := final.2, form_data := form_data, files := files }

/-- ToOptionT from file_field.rs, with the same mutation-to-pair translation
as FromAny. -/
class ToOptionT (T : Type) where
  from_vec : List CoreFileField → Option T × List CoreFileField
  is_optional : Bool

/-- The ToOptionT impl for UploadedFile: removes and converts the first
descriptor, failing on an empty list. -/
instance toOptionUploadedFile : ToOptionT UploadedFile where
  from_vec files :=
    match files with
    | [] => (none, [])
    | f :: rest => (some (UploadedFile.from_core_file_field f), rest)
  is_optional := false

/-- The ToOptionT impl for Option UploadedFile: removes and converts the
first descriptor when present, succeeding with None otherwise. -/
instance toOptionOptionUploadedFile : ToOptionT (Option UploadedFile) where
  from_vec files :=
    match files with
    | [] => (some none, [])
    | f :: rest => (some (some (UploadedFile.from_core_file_field f)), rest)
  is_optional := true

/-- The loop of the Vec impls of ToOptionT::from_vec: for i in
(0..files.len()).rev(), remove files[i] (at each step the last remaining
element) and insert the converted file at the front of owned_files. Traversing
the reversed list while prepending is that same iteration order. -/
def drain_files_loop : List CoreFileField → List UploadedFile → List UploadedFile
  | [], owned_files => owned_files
  | f :: rest, owned_files =>
    drain_files_loop rest (UploadedFile.from_core_file_field f :: owned_files)

/-- The ToOptionT impl for Vec UploadedFile: converts every descriptor,
leaving the list empty, and fails on an empty list. -/
instance toOptionVecUploadedFile : ToOptionT (List UploadedFile) where
  from_vec files :=
    if files.length > 0 then (some (drain_files_loop files.reverse []), [])
    else (none, files)
  is_optional := false

/-- The ToOptionT impl for Option (Vec UploadedFile): converts every
descriptor, leaving the list empty, and succeeds with None on an empty
list. -/
instance toOptionOptionVecUploadedFile : ToOptionT (Option (List UploadedFile)) where
  from_vec files :=
    if files.length > 0 then (some (some (drain_files_loop files.reverse [])), [])
    else (some none, files)
  is_optional := true

/-- FileField from file_field.rs, flattened like InputField; the fresh result
slot is none. -/
structure FileField (T : Type) where
  field_name : String
  result : Option T
  post_validator : Option (T → Except (List String) T)
  validated : Bool

/-- FileField::new. -/
def FileField.new (T : Type) (field_name : String) : FileField T :=
  { field_name := field_name, result := none, post_validator := none,
    validated := false }

/-- FileField::post_validate (builder). -/
def FileField.post_validate {T : Type} (self : FileField T)
    (callback : T → Except (List String) T) : FileField T :=
  { self with post_validator := some callback }

/-- FileField::value, the same two panicking branches modelled by none. -/
def FileField.value {T : Type} (self : FileField T) : Option T :=
  if !self.validated then
    none
  else
    match self.result with
    | some t => some t
    | none => none

/-- The value returned by one call of FileField::validate (this validate has
no unwrap, so the outcome is a plain Except). -/
structure FileValidateResult (T : Type) where
  outcome : Except (List String) Unit
  field : FileField T
  form_data : FormData
  files : Files

/-- FileField::validate from file_field.rs: remove the raw entry, convert the
present descriptors and run the post validator on the converted value (the
slot is written on acceptance, and also when no post validator is
configured), append the required error when a non optional shape saw no
descriptor, fail on accumulated errors, otherwise synthesize the empty
representation for an optional empty field, mark validated and succeed. -/
def FileField.validate {T : Type} [ToOptionT T] (self : FileField T)
    (form_data : FormData) (files : Files) : FileValidateResult T :=
  let removed := mapRemove files self.field_name
  let files2 := removed.2
  let post_validator := self.post_validator
  let errors : List String := []
  let is_optional := @ToOptionT.is_optional T _
  let step1 : List String × Option T × Bool :=
    match removed.1 with
    | some fs =>
      let is_empty := fs.isEmpty
      match (ToOptionT.from_vec fs : Option T × List CoreFileField).1 with
      | some t =>
        match post_validator with
        | some pv =>
          match pv t with
          | Except.ok t2 => (errors, some t2, is_empty)
          | Except.error custom_errors =>
            (errors ++ custom_errors, self.result, is_empty)
        | none => (errors, some t, is_empty)
      | none => (errors, self.result, is_empty)
    | none => (errors, self.result, true)
  let errors := step1.1
  let slot := step1.2.1
  let is_empty := step1.2.2
  let errors :=
    if !is_optional && is_empty then errors ++ ["This field is required."]
    else errors
  let final : Except (List String) Unit × FileField T :=
    if errors.length > 0 then
      (Except.error errors, { self with result := slot })
    else
      let slot :=
        if is_optional && is_empty then
          match (ToOptionT.from_vec ([] : List CoreFileField) :
              Option T × List CoreFileField).1 with
          | some t => some t
          | none => slot
        else slot
      (Except.ok (), { self with result := slot, validated := true })
  { outcome := final.1, field := final.2, form_data := form_data, files := files2 }

/-! Derived descriptions of the two error message branches, used to state the
outcomes of validate without existential quantifiers. Each mirrors one branch
of the source verbatim. -/

/-- The message list produced by the missing field branch of
InputField::validate: the handler output on the MissingField error when a
handler is configured, the default sentence otherwise. -/
def missing_error_messages (field_name : String) (eh : Option ErrorHandler) :
    List String :=
  match eh with
  | some error_handler =>
    error_handler (InputFieldError.MissingField field_name)
      ["This field is missing."]
  | none => ["This field is missing."]

/-- The message list produced by validate_input_length on an over long first
value: the handler output on the MaximumLengthExceed error (applied, as the
source does, to the value first) when a handler is configured, the default
sentence otherwise. -/
def max_length_error_messages (value field_name : String)
    (maximum_length : Nat) (eh : Option ErrorHandler) : List String :=
  match eh with
  | some error_handler =>
    error_handler
      (InputFieldError.MaximumLengthExceed value field_name maximum_length)
      ["Character length exceeds maximum size of " ++ toString maximum_length]
  | none =>
    ["Character length exceeds maximum size of " ++ toString maximum_length]

/-- On an over long first value, validate_input_length appends exactly the
max length message list. -/
theorem validate_input_length_overlong (field_name v : String)
    (rest : List String) (eh : Option ErrorHandler) (n : Nat)
    (errors : List String) (h : v.length > n) :
    validate_input_length field_name (v :: rest) eh (some n) errors
      = errors ++ max_length_error_messages v field_name n eh := by
  cases eh <;> simp [validate_input_length, max_length_error_messages, h]

/-- The accumulation of drain_files_loop: prepending while walking the list
yields the reversed converted list in front of the accumulator. -/
theorem drain_files_loop_eq (l : List CoreFileField) (acc : List UploadedFile) :
    drain_files_loop l acc
      = l.reverse.map UploadedFile.from_core_file_field ++ acc := by
  induction l generalizing acc with
  | nil => simp [drain_files_loop]
  | cons f rest ih => simp [drain_files_loop, ih]

/-- The Vec loop of ToOptionT::from_vec converts in arrival order. -/
theorem drain_files_loop_reverse (l : List CoreFileField) :
    drain_files_loop l.reverse []
      = l.map UploadedFile.from_core_file_field := by
  simp [drain_files_loop_eq]

/-- C4: the claim states that a configured handler receives
MaximumLengthExceed(field_name, value, maximum_length) in the positions the
error type declares. On a field named name with first value toolong and
limit 3, a handler reading the declared positions sees the offending value in
the declared field name slot and the field name in the declared value slot:
the call site passes the constructor arguments swapped, contradicting the doc
comment of the error type. -/
theorem c4_handler_argument_order :
    validate_input_length "name" ["toolong"]
      (some (fun e _ =>
        match e with
        | InputFieldError.MaximumLengthExceed field_name value maximum_length =>
          [field_name, value, toString maximum_length]
        | _ => []))
      (some 3) [] = ["toolong", "name", "3"] := by rfl

/-- C5: the max length check of validate_input_length inspects only the first
value of the list: its result is unchanged under any replacement of the tail,
and a first value within the limit leaves the error list untouched no matter
what follows it. -/
theorem c5_first_value_only :
    (∀ (field_name v : String) (rest rest2 : List String)
      (eh : Option ErrorHandler) (ml : Option Nat) (errors : List String),
      validate_input_length field_name (v :: rest) eh ml errors
        = validate_input_length field_name (v :: rest2) eh ml errors)
    ∧ (∀ (field_name v : String) (rest : List String)
      (eh : Option ErrorHandler) (n : Nat) (errors : List String),
      v.length ≤ n →
      validate_input_length field_name (v :: rest) eh (some n) errors
        = errors) := by
  constructor
  · intro field_name v rest rest2 eh ml errors
    simp [validate_input_length]
  · intro field_name v rest eh n errors h
    simp [validate_input_length, Nat.not_lt.mpr h]

/-- C5 witness: at concrete inputs, the tail of the value list does not
change the check, and a short first value passes it. -/
theorem c5_first_value_only_witness :
    (validate_input_length "n" ["a", "bbbb"] none (some 3) []
      = validate_input_length "n" ["a", "cc"] none (some 3) [])
    ∧ ("a".length ≤ 3
      ∧ validate_input_length "n" ["a", "bbbb"] none (some 3) [] = []) :=
  ⟨c5_first_value_only.1 "n" "a" ["bbbb"] ["cc"] none (some 3) [],
    by decide,
    c5_first_value_only.2 "n" "a" ["bbbb"] none 3 [] (by decide)⟩

/-- C7: on a non empty descriptor list, the collection shaped conversions
return every descriptor converted in arrival order and leave the list empty,
while the single shaped conversions remove and return exactly the first
descriptor, leaving the rest. -/
theorem c7_conversion_order (d : CoreFileField) (rest : List CoreFileField) :
    (ToOptionT.from_vec (d :: rest) :
        Option (List UploadedFile) × List CoreFileField)
      = (some ((d :: rest).map UploadedFile.from_core_file_field), [])
    ∧ (ToOptionT.from_vec (d :: rest) :
        Option (Option (List UploadedFile)) × List CoreFileField)
      = (some (some ((d :: rest).map UploadedFile.from_core_file_field)), [])
    ∧ (ToOptionT.from_vec (d :: rest) :
        Option UploadedFile × List CoreFileField)
      = (some (UploadedFile.from_core_file_field d), rest)
    ∧ (ToOptionT.from_vec (d :: rest) :
        Option (Option UploadedFile) × List CoreFileField)
      = (some (some (UploadedFile.from_core_file_field d)), rest) := by
  refine ⟨?_, ?_, rfl, rfl⟩ <;>
    simp [ToOptionT.from_vec, toOptionVecUploadedFile,
      toOptionOptionVecUploadedFile, drain_files_loop_eq]

/-- C1 counterexample: a required text field with no entry and no default,
whose configured handler returns an empty message list, makes validate reach
the conversion unwrap on an empty value list, so validate neither returns the
claimed missing field error nor any result at all (the outcome none models
the unwrap panic). -/
theorem c1_counterexample :
    (InputField.validate
      { (InputField.new String "name") with
          error_handler := some (fun _ _ => []) }
      (fun _ => none) (fun _ => none)).outcome = none
    ∧ (none : Option (Except (List String) Unit))
        ≠ some (Except.error ["This field is missing."]) := by
  exact ⟨rfl, by simp⟩

/-- C3 counterexample: a text field with max length 3, a handler returning an
empty message list and first value abcd of length 4 makes validate return ok,
mark the field validated and store the over long value, against the claimed
error outcome. -/
theorem c3_counterexample :
    (InputField.validate
      { (InputField.new String "name") with
          max_length := some 3
          error_handler := some (fun _ _ => []) }
      (fun k => if k = "name" then some ["abcd"] else none)
      (fun _ => none)).outcome = some (Except.ok ())
    ∧ (InputField.validate
      { (InputField.new String "name") with
          max_length := some 3
          error_handler := some (fun _ _ => []) }
      (fun k => if k = "name" then some ["abcd"] else none)
      (fun _ => none)).field.validated = true
    ∧ (InputField.validate
      { (InputField.new String "name") with
          max_length := some 3
          error_handler := some (fun _ _ => []) }
      (fun k => if k = "name" then some ["abcd"] else none)
      (fun _ => none)).field.result = some "abcd" := by
  exact ⟨rfl, rfl, rfl⟩

/-- C6 counterexample: a single file field whose post validator rejects with
an empty error list, fed one descriptor, makes validate return ok while
storing nothing, against the claimed error outcome equal to the validator
list. -/
theorem c6_counterexample :
    (FileField.validate
      { (FileField.new UploadedFile "file") with
          post_validator := some (fun _ => Except.error []) }
      (fun _ => none)
      (fun k => if k = "file" then
        some [{ name := "file.txt", temp_path := "tmp1" }] else none)).outcome
      = Except.ok ()
    ∧ (FileField.validate
      { (FileField.new UploadedFile "file") with
          post_validator := some (fun _ => Except.error []) }
      (fun _ => none)
      (fun k => if k = "file" then
        some [{ name := "file.txt", temp_path := "tmp1" }] else none)).field.result
      = none := by
  exact ⟨rfl, rfl⟩

/-- C9 counterexample: a required text field with a present but empty value
list, no default and a handler returning an empty message list reaches the
conversion step with an empty error list, where from_vec for String returns
none, so the unwrap panic branch fires (outcome none). -/
theorem c9_counterexample :
    (InputField.validate
      { (InputField.new String "name9") with
          error_handler := some (fun _ _ => []) }
      (fun k => if k = "name9" then some [] else none)
      (fun _ => none)).outcome = none := by
  exact rfl

/-- C10 counterexample: on a missing required input with a handler returning
an empty message list, validate does not return ok as claimed: it reaches the
conversion unwrap on the absent value list and panics (outcome none). -/
theorem c10_counterexample :
    (InputField.validate
      { (InputField.new String "age") with
          error_handler := some (fun _ _ => []) }
      (fun _ => none) (fun _ => none)).outcome = none
    ∧ (none : Option (Except (List String) Unit)) ≠ some (Except.ok ()) := by
  exact ⟨rfl, by simp⟩

/-- C10 (amended): a text field whose handler returns an empty message list
silently passes an over length violation: validate returns ok, marks the
field validated and stores the converted over long value as if no violation
had occurred. -/
theorem c10_swallowed_overlength_ok :
    (InputField.validate
      { (InputField.new String "nick") with
          max_length := some 3
          error_handler := some (fun _ _ => []) }
      (fun k => if k = "nick" then some ["abcdef"] else none)
      (fun _ => none)).outcome = some (Except.ok ())
    ∧ (InputField.validate
      { (InputField.new String "nick") with
          max_length := some 3
          error_handler := some (fun _ _ => []) }
      (fun k => if k = "nick" then some ["abcdef"] else none)
      (fun _ => none)).field.validated = true
    ∧ (InputField.validate
      { (InputField.new String "nick") with
          max_length := some 3
          error_handler := some (fun _ _ => []) }
      (fun k => if k = "nick" then some ["abcdef"] else none)
      (fun _ => none)).field.result = some "abcdef" := by
  exact ⟨rfl, rfl, rfl⟩

/-- C1 (amended): for the required shapes (String text fields, single and
collection file fields) with no raw entry or a present but empty list, no
default, a fresh field and, for text fields, a missing field message list
that is non empty (always the case without a handler), validate returns the
error list of the missing branch and a later value call returns nothing. -/
theorem c1_required_missing_reports_error :
    (∀ (fld : InputField String) (fd : FormData) (fs : Files),
      fld.default_value = none →
      fld.validated = false →
      (fd fld.field_name = none ∨ fd fld.field_name = some []) →
      missing_error_messages fld.field_name fld.error_handler ≠ [] →
      (fld.validate fd fs).outcome
          = some (Except.error
              (missing_error_messages fld.field_name fld.error_handler))
        ∧ (fld.validate fd fs).field.value = none)
    ∧ (∀ (fld : FileField UploadedFile) (fd : FormData) (fs : Files),
      fld.validated = false →
      (fs fld.field_name = none ∨ fs fld.field_name = some []) →
      (fld.validate fd fs).outcome = Except.error ["This field is required."]
        ∧ (fld.validate fd fs).field.value = none)
    ∧ (∀ (fld : FileField (List UploadedFile)) (fd : FormData) (fs : Files),
      fld.validated = false →
      (fs fld.field_name = none ∨ fs fld.field_name = some []) →
      (fld.validate fd fs).outcome = Except.error ["This field is required."]
        ∧ (fld.validate fd fs).field.value = none) := by
  refine ⟨?_, ?_, ?_⟩
  · intro fld fd fs hdv hvd hfd hne
    obtain ⟨fname, ml, res, eh, dv, vd⟩ := fld
    dsimp only at hdv hvd hfd hne ⊢
    subst hdv
    subst hvd
    rcases hfd with h | h <;> cases eh <;>
      simp [missing_error_messages] at hne <;>
      simp [InputField.validate, mapRemove, h, missing_error_messages,
        InputField.value, validate_input_length,
        FromAny.type_id_eq_option_string, fromAnyString,
        List.length_pos, hne]
  · intro fld fd fs hvd hfs
    obtain ⟨fname, res, pvo, vd⟩ := fld
    dsimp only at hvd hfs ⊢
    subst hvd
    rcases hfs with h | h <;>
      simp [FileField.validate, mapRemove, h, FileField.value,
        ToOptionT.from_vec, toOptionUploadedFile, ToOptionT.is_optional]
  · intro fld fd fs hvd hfs
    obtain ⟨fname, res, pvo, vd⟩ := fld
    dsimp only at hvd hfs ⊢
    subst hvd
    rcases hfs with h | h <;>
      simp [FileField.validate, mapRemove, h, FileField.value,
        ToOptionT.from_vec, toOptionVecUploadedFile, ToOptionT.is_optional]

/-- C1 witness: fresh required fields of each shape with empty raw maps. -/
theorem c1_required_missing_reports_error_witness :
    ((InputField.validate (InputField.new String "w1") (fun _ => none)
        (fun _ => none)).outcome
        = some (Except.error (missing_error_messages "w1" none))
      ∧ (InputField.validate (InputField.new String "w1") (fun _ => none)
        (fun _ => none)).field.value = none)
    ∧ ((FileField.validate (FileField.new UploadedFile "w2") (fun _ => none)
        (fun _ => none)).outcome = Except.error ["This field is required."]
      ∧ (FileField.validate (FileField.new UploadedFile "w2") (fun _ => none)
        (fun _ => none)).field.value = none)
    ∧ ((FileField.validate (FileField.new (List UploadedFile) "w3")
        (fun _ => none) (fun _ => none)).outcome
        = Except.error ["This field is required."]
      ∧ (FileField.validate (FileField.new (List UploadedFile) "w3")
        (fun _ => none) (fun _ => none)).field.value = none) :=
  ⟨c1_required_missing_reports_error.1 (InputField.new String "w1")
      (fun _ => none) (fun _ => none) rfl rfl (Or.inl rfl)
      (by simp [missing_error_messages, InputField.new]),
    c1_required_missing_reports_error.2.1 (FileField.new UploadedFile "w2")
      (fun _ => none) (fun _ => none) rfl (Or.inl rfl),
    c1_required_missing_reports_error.2.2 (FileField.new (List UploadedFile) "w3")
      (fun _ => none) (fun _ => none) rfl (Or.inl rfl)⟩

/-- C2: for the optional shapes (Option String text fields, Option UploadedFile
and Option Vec UploadedFile file fields) with no raw entry, validate succeeds
and value yields the empty representation none. -/
theorem c2_optional_absent_ok :
    (∀ (fld : InputField (Option String)) (fd : FormData) (fs : Files),
      fd fld.field_name = none →
      (fld.validate fd fs).outcome = some (Except.ok ())
        ∧ (fld.validate fd fs).field.value = some none)
    ∧ (∀ (fld : FileField (Option UploadedFile)) (fd : FormData) (fs : Files),
      fs fld.field_name = none →
      (fld.validate fd fs).outcome = Except.ok ()
        ∧ (fld.validate fd fs).field.value = some none)
    ∧ (∀ (fld : FileField (Option (List UploadedFile))) (fd : FormData)
      (fs : Files),
      fs fld.field_name = none →
      (fld.validate fd fs).outcome = Except.ok ()
        ∧ (fld.validate fd fs).field.value = some none) := by
  refine ⟨?_, ?_, ?_⟩
  · intro fld fd fs h
    obtain ⟨fname, ml, res, eh, dv, vd⟩ := fld
    dsimp only at h ⊢
    simp [InputField.validate, mapRemove, h, InputField.value,
      FromAny.from_vec, fromAnyOptionString, FromAny.type_id_eq_option_string]
  · intro fld fd fs h
    obtain ⟨fname, res, pvo, vd⟩ := fld
    dsimp only at h ⊢
    simp [FileField.validate, mapRemove, h, FileField.value,
      ToOptionT.from_vec, toOptionOptionUploadedFile, ToOptionT.is_optional]
  · intro fld fd fs h
    obtain ⟨fname, res, pvo, vd⟩ := fld
    dsimp only at h ⊢
    simp [FileField.validate, mapRemove, h, FileField.value,
      ToOptionT.from_vec, toOptionOptionVecUploadedFile, ToOptionT.is_optional]

/-- C2 witness: fresh optional fields of each shape with empty raw maps. -/
theorem c2_optional_absent_ok_witness :
    ((InputField.validate (InputField.new (Option String) "v1") (fun _ => none)
        (fun _ => none)).outcome = some (Except.ok ())
      ∧ (InputField.validate (InputField.new (Option String) "v1")
        (fun _ => none) (fun _ => none)).field.value = some none)
    ∧ ((FileField.validate (FileField.new (Option UploadedFile) "v2")
        (fun _ => none) (fun _ => none)).outcome = Except.ok ()
      ∧ (FileField.validate (FileField.new (Option UploadedFile) "v2")
        (fun _ => none) (fun _ => none)).field.value = some none)
    ∧ ((FileField.validate (FileField.new (Option (List UploadedFile)) "v3")
        (fun _ => none) (fun _ => none)).outcome = Except.ok ()
      ∧ (FileField.validate (FileField.new (Option (List UploadedFile)) "v3")
        (fun _ => none) (fun _ => none)).field.value = some none) :=
  ⟨c2_optional_absent_ok.1 (InputField.new (Option String) "v1")
      (fun _ => none) (fun _ => none) rfl,
    c2_optional_absent_ok.2.1 (FileField.new (Option UploadedFile) "v2")
      (fun _ => none) (fun _ => none) rfl,
    c2_optional_absent_ok.2.2 (FileField.new (Option (List UploadedFile)) "v3")
      (fun _ => none) (fun _ => none) rfl⟩

/-- C3 (amended): for a text field of either shape with max length n and a
first raw value longer than n, provided the max length message list is non
empty (always the case without a handler), validate returns the error list of
the length branch, writes nothing into the result slot and leaves the
validated flag unchanged. -/
theorem c3_max_length_error (T : Type) [FromAny T] (fld : InputField T)
    (fd : FormData) (fs : Files) (n : Nat) (v : String) (rest : List String)
    (hml : fld.max_length = some n)
    (hfd : fd fld.field_name = some (v :: rest))
    (hlen : v.length > n)
    (hne : max_length_error_messages v fld.field_name n fld.error_handler
      ≠ []) :
    (fld.validate fd fs).outcome
        = some (Except.error
            (max_length_error_messages v fld.field_name n fld.error_handler))
      ∧ (fld.validate fd fs).field.result = fld.result
      ∧ (fld.validate fd fs).field.validated = fld.validated := by
  obtain ⟨fname, ml, res, eh, dv, vd⟩ := fld
  dsimp only at hml hfd hne ⊢
  subst hml
  simp [InputField.validate, mapRemove, hfd,
    validate_input_length_overlong fname v rest eh n [] hlen,
    List.length_pos, hne]

/-- C3 witness: a String field with limit 3 and the value abcd of length 4. -/
theorem c3_max_length_error_witness :
    "abcd".length > 3
    ∧ ((InputField.validate
        { (InputField.new String "c3w") with max_length := some 3 }
        (fun k => if k = "c3w" then some ["abcd"] else none)
        (fun _ => none)).outcome
        = some (Except.error (max_length_error_messages "abcd" "c3w" 3 none))
      ∧ (InputField.validate
        { (InputField.new String "c3w") with max_length := some 3 }
        (fun k => if k = "c3w" then some ["abcd"] else none)
        (fun _ => none)).field.result = none
      ∧ (InputField.validate
        { (InputField.new String "c3w") with max_length := some 3 }
        (fun k => if k = "c3w" then some ["abcd"] else none)
        (fun _ => none)).field.validated = false) :=
  ⟨by decide,
    c3_max_length_error String
      { (InputField.new String "c3w") with max_length := some 3 }
      (fun k => if k = "c3w" then some ["abcd"] else none)
      (fun _ => none) 3 "abcd" [] rfl rfl (by decide)
      (by simp [max_length_error_messages, InputField.new])⟩

/-- C6 (amended): a file field with a post validator, fed a non empty
descriptor list whose structural conversion succeeds: a rejection with a non
empty error list becomes the error outcome with nothing stored, and an
acceptance stores the possibly transformed value and succeeds. -/
theorem c6_post_validator_outcome (T : Type) [ToOptionT T] (fld : FileField T)
    (fd : FormData) (fs : Files) (ds : List CoreFileField)
    (pv : T → Except (List String) T) (t : T)
    (hpv : fld.post_validator = some pv)
    (hfs : fs fld.field_name = some ds)
    (hds : ds ≠ [])
    (hconv : (ToOptionT.from_vec ds : Option T × List CoreFileField).1
      = some t) :
    (∀ ce, pv t = Except.error ce → ce ≠ [] →
      (fld.validate fd fs).outcome = Except.error ce
        ∧ (fld.validate fd fs).field.result = fld.result)
    ∧ (∀ t2, pv t = Except.ok t2 →
      (fld.validate fd fs).outcome = Except.ok ()
        ∧ (fld.validate fd fs).field.result = some t2) := by
  obtain ⟨fname, res, pvo, vd⟩ := fld
  dsimp only at hpv hfs ⊢
  subst hpv
  obtain ⟨d, ds2, rfl⟩ := List.exists_cons_of_ne_nil hds
  constructor
  · intro ce hce hne
    simp [FileField.validate, mapRemove, hfs, hconv, hce, List.length_pos, hne]
  · intro t2 ht2
    simp [FileField.validate, mapRemove, hfs, hconv, ht2]

/-- C6 witness: a rejecting and an accepting post validator over one
descriptor. -/
theorem c6_post_validator_outcome_witness :
    ((FileField.validate
        { (FileField.new UploadedFile "c6r") with
            post_validator := some (fun _ => Except.error ["bad"]) }
        (fun _ => none)
        (fun k => if k = "c6r" then
          some [{ name := "a.txt", temp_path := "p" }] else none)).outcome
        = Except.error ["bad"]
      ∧ (FileField.validate
        { (FileField.new UploadedFile "c6r") with
            post_validator := some (fun _ => Except.error ["bad"]) }
        (fun _ => none)
        (fun k => if k = "c6r" then
          some [{ name := "a.txt", temp_path := "p" }] else none)).field.result
        = none)
    ∧ ((FileField.validate
        { (FileField.new UploadedFile "c6a") with
            post_validator := some (fun u => Except.ok u) }
        (fun _ => none)
        (fun k => if k = "c6a" then
          some [{ name := "a.txt", temp_path := "p" }] else none)).outcome
        = Except.ok ()
      ∧ (FileField.validate
        { (FileField.new UploadedFile "c6a") with
            post_validator := some (fun u => Except.ok u) }
        (fun _ => none)
        (fun k => if k = "c6a" then
          some [{ name := "a.txt", temp_path := "p" }] else none)).field.result
        = some (UploadedFile.from_core_file_field
            { name := "a.txt", temp_path := "p" })) :=
  ⟨(c6_post_validator_outcome UploadedFile
      { (FileField.new UploadedFile "c6r") with
          post_validator := some (fun _ => Except.error ["bad"]) }
      (fun _ => none)
      (fun k => if k = "c6r" then
        some [{ name := "a.txt", temp_path := "p" }] else none)
      [{ name := "a.txt", temp_path := "p" }]
      (fun _ => Except.error ["bad"])
      (UploadedFile.from_core_file_field { name := "a.txt", temp_path := "p" })
      rfl rfl (by simp) rfl).1 ["bad"] rfl (by simp),
    (c6_post_validator_outcome UploadedFile
      { (FileField.new UploadedFile "c6a") with
          post_validator := some (fun u => Except.ok u) }
      (fun _ => none)
      (fun k => if k = "c6a" then
        some [{ name := "a.txt", temp_path := "p" }] else none)
      [{ name := "a.txt", temp_path := "p" }]
      (fun u => Except.ok u)
      (UploadedFile.from_core_file_field { name := "a.txt", temp_path := "p" })
      rfl rfl (by simp) rfl).2
      (UploadedFile.from_core_file_field { name := "a.txt", temp_path := "p" })
      rfl⟩

/-- C8: validate removes at most the entry keyed by its own field name from
the map relevant to its kind and leaves every other key of both maps
unchanged; a text field never modifies the file map and a file field never
modifies the form data map. -/
theorem c8_frame (T U : Type) [FromAny T] [ToOptionT U]
    (tfld : InputField T) (ffld : FileField U) (fd : FormData) (fs : Files)
    (k : String) :
    (k ≠ tfld.field_name → (tfld.validate fd fs).form_data k = fd k)
    ∧ (tfld.validate fd fs).form_data tfld.field_name = none
    ∧ (tfld.validate fd fs).files = fs
    ∧ (k ≠ ffld.field_name → (ffld.validate fd fs).files k = fs k)
    ∧ (ffld.validate fd fs).files ffld.field_name = none
    ∧ (ffld.validate fd fs).form_data = fd := by
  have h1 : (tfld.validate fd fs).form_data
      = (mapRemove fd tfld.field_name).2 := rfl
  have h2 : (tfld.validate fd fs).files = fs := rfl
  have h3 : (ffld.validate fd fs).files
      = (mapRemove fs ffld.field_name).2 := rfl
  have h4 : (ffld.validate fd fs).form_data = fd := rfl
  refine ⟨?_, ?_, h2, ?_, ?_, h4⟩
  · intro hk
    rw [h1]
    simp [mapRemove, hk]
  · rw [h1]
    simp [mapRemove]
  · intro hk
    rw [h3]
    simp [mapRemove, hk]
  · rw [h3]
    simp [mapRemove]

/-- C8 witness: concrete fields and maps, read back at a different key. -/
theorem c8_frame_witness :
    ((InputField.validate (InputField.new String "c8a")
        (fun k => if k = "other" then some ["y"] else none)
        (fun _ => none)).form_data "other"
      = (fun k => if k = "other" then some ["y"] else none) "other")
    ∧ ((InputField.validate (InputField.new String "c8a")
        (fun k => if k = "other" then some ["y"] else none)
        (fun _ => none)).form_data "c8a" = none)
    ∧ ((InputField.validate (InputField.new String "c8a")
        (fun k => if k = "other" then some ["y"] else none)
        (fun _ => none)).files = (fun _ => none))
    ∧ ((FileField.validate (FileField.new UploadedFile "c8b")
        (fun k => if k = "other" then some ["y"] else none)
        (fun _ => none)).files "other" = (fun _ => none : Files) "other")
    ∧ ((FileField.validate (FileField.new UploadedFile "c8b")
        (fun k => if k = "other" then some ["y"] else none)
        (fun _ => none)).files "c8b" = none)
    ∧ ((FileField.validate (FileField.new UploadedFile "c8b")
        (fun k => if k = "other" then some ["y"] else none)
        (fun _ => none)).form_data
      = (fun k => if k = "other" then some ["y"] else none)) :=
  ⟨(c8_frame String UploadedFile (InputField.new String "c8a")
      (FileField.new UploadedFile "c8b")
      (fun k => if k = "other" then some ["y"] else none)
      (fun _ => none) "other").1 (by decide),
    (c8_frame String UploadedFile (InputField.new String "c8a")
      (FileField.new UploadedFile "c8b")
      (fun k => if k = "other" then some ["y"] else none)
      (fun _ => none) "other").2.1,
    (c8_frame String UploadedFile (InputField.new String "c8a")
      (FileField.new UploadedFile "c8b")
      (fun k => if k = "other" then some ["y"] else none)
      (fun _ => none) "other").2.2.1,
    (c8_frame String UploadedFile (InputField.new String "c8a")
      (FileField.new UploadedFile "c8b")
      (fun k => if k = "other" then some ["y"] else none)
      (fun _ => none) "other").2.2.2.1 (by decide),
    (c8_frame String UploadedFile (InputField.new String "c8a")
      (FileField.new UploadedFile "c8b")
      (fun k => if k = "other" then some ["y"] else none)
      (fun _ => none) "other").2.2.2.2.1,
    (c8_frame String UploadedFile (InputField.new String "c8a")
      (FileField.new UploadedFile "c8b")
      (fun k => if k = "other" then some ["y"] else none)
      (fun _ => none) "other").2.2.2.2.2⟩

/-- C9 (amended): for a String text field whose missing field message list is
non empty (always the case without a handler), and for every Option String
text field, validate never reaches the unwrap panic branch of the conversion
step (the outcome is never none): from_vec returns Some on every path that
reaches conversion. -/
theorem c9_no_panic :
    (∀ (fld : InputField String) (fd : FormData) (fs : Files),
      missing_error_messages fld.field_name fld.error_handler ≠ [] →
      (fld.validate fd fs).outcome ≠ none)
    ∧ (∀ (fld : InputField (Option String)) (fd : FormData) (fs : Files),
      (fld.validate fd fs).outcome ≠ none) := by
  constructor
  · intro fld fd fs hne
    obtain ⟨fname, ml, res, eh, dv, vd⟩ := fld
    dsimp only at hne ⊢
    cases h : fd fname with
    | none =>
      cases dv <;> cases eh <;>
        simp [missing_error_messages] at hne <;>
        simp [InputField.validate, mapRemove, h, missing_error_messages,
          validate_input_length, FromAny.type_id_eq_option_string,
          FromAny.from_vec, fromAnyString, List.length_pos, hne]
    | some values =>
      cases values with
      | nil =>
        cases dv <;> cases eh <;>
          simp [missing_error_messages] at hne <;>
          simp [InputField.validate, mapRemove, h, missing_error_messages,
            validate_input_length, FromAny.type_id_eq_option_string,
            FromAny.from_vec, fromAnyString, List.length_pos, hne]
      | cons v rest =>
        simp [InputField.validate, mapRemove, h,
          FromAny.type_id_eq_option_string, FromAny.from_vec, fromAnyString]
        split <;> simp
  · intro fld fd fs
    obtain ⟨fname, ml, res, eh, dv, vd⟩ := fld
    cases h : fd fname with
    | none =>
      simp [InputField.validate, mapRemove, h,
        FromAny.type_id_eq_option_string, FromAny.from_vec, fromAnyOptionString]
    | some values =>
      cases values with
      | nil =>
        simp [InputField.validate, mapRemove, h,
          FromAny.type_id_eq_option_string, FromAny.from_vec,
          fromAnyOptionString, validate_input_length]
      | cons v rest =>
        simp [InputField.validate, mapRemove, h,
          FromAny.type_id_eq_option_string, FromAny.from_vec,
          fromAnyOptionString]
        split <;> simp

/-- C9 witness: fresh fields of both shapes with empty raw maps. -/
theorem c9_no_panic_witness :
    ((InputField.validate (InputField.new String "w9") (fun _ => none)
        (fun _ => none)).outcome ≠ none)
    ∧ ((InputField.validate (InputField.new (Option String) "w9o")
        (fun _ => none) (fun _ => none)).outcome ≠ none) :=
  ⟨c9_no_panic.1 (InputField.new String "w9") (fun _ => none) (fun _ => none)
      (by simp [missing_error_messages, InputField.new]),
    c9_no_panic.2 (InputField.new (Option String) "w9o") (fun _ => none)
      (fun _ => none)⟩

end Racoon
